import Mathlib

/-!
Shallow embedding of the learnifyapi client (src/learnifyapi/client.py and
the schema modules under src/learnifyapi/types/api/), together with theorems
settling the claims about its specification.

Conventions of the embedding:
* Python JSON values are the inductive `Json`; a Python dict is an
  association list whose keys are unique in any value produced by a real
  JSON parser, kept in insertion order.
* A Python value passed as a query parameter is a `PVal`; a value passed as
  a custom header is an `HVal`.  Both carry, for values outside the cases
  the code inspects, the string the Python built-in str would render.
* An HTTP response is a `Response`: its status, its body text, and the
  result of parsing that text as JSON (`Option Json`, `none` when parsing
  raises JSONDecodeError or aiohttp.ContentTypeError).
* Exceptions become `Except` values; the distinct Python exception classes
  the client can raise are the constructors of `PyError`.
-/

/-- A parsed JSON value. -/
inductive Json where
  | null
  | bool (b : Bool)
  | num (n : Int)
  | str (s : String)
  | arr (xs : List Json)
  | obj (kvs : List (String × Json))

/-- Rendering of a parsed JSON value by the Python built-in str, as used by
the fallback message str(json_response) in the client.  Python shows a dict
with braces and single quotes. -/
def pyReprJson : Json → String
  | Json.null => "None"
  | Json.bool true => "True"
  | Json.bool false => "False"
  | Json.num n => toString n
  | Json.str s => "\x27" ++ s ++ "\x27"
  | Json.arr xs =>
      "[" ++ String.intercalate ", " (xs.attach.map (fun x => pyReprJson x.1)) ++ "]"
  | Json.obj kvs =>
      "\x7b" ++
        String.intercalate ", "
          (kvs.attach.map
            (fun kv => "\x27" ++ kv.1.1 ++ "\x27: " ++ pyReprJson kv.1.2)) ++
      "\x7d"
decreasing_by
  · have h := List.sizeOf_lt_of_mem x.2
    simp only [Json.arr.sizeOf_spec]
    omega
  · obtain ⟨⟨k, v⟩, hmem⟩ := kv
    have h := List.sizeOf_lt_of_mem hmem
    simp only [Prod.mk.sizeOf_spec] at h
    simp only [Json.obj.sizeOf_spec]
    omega

/-- A Python value supplied as a query parameter to init_params.  Floats and
values outside the inspected classes are carried by their str rendering. -/
inductive PVal where
  | str (s : String)
  | int (n : Int)
  | float (repr : String)
  | bool (b : Bool)
  | none
  | other (repr : String)
deriving DecidableEq

/-- Rendering of a PVal by the Python built-in str, which is what an empty
format specifier in an f-string applies. -/
def pyStr_pval : PVal → String
  | PVal.str s => s
  | PVal.int n => toString n
  | PVal.float r => r
  | PVal.bool true => "True"
  | PVal.bool false => "False"
  | PVal.none => "None"
  | PVal.other r => r

/-- The Python test isinstance(Y, (str, float, int)).  In Python, bool is a
subclass of int, so a boolean satisfies this test. -/
def isinstance_str_float_int : PVal → Bool
  | PVal.str _ => true
  | PVal.int _ => true
  | PVal.float _ => true
  | PVal.bool _ => true
  | _ => false

/-- The dict boolean = \x7bTrue: "true", False: "false"\x7d of init_params. -/
def boolean_map (b : Bool) : String :=
  if b then "true" else "false"

/-- The value each parameter is mapped to by the dict comprehension inside
init_params: kept as-is when isinstance(Y, (str, float, int)); otherwise
looked up in the boolean dict when it is a bool (this arm is unreachable,
because a bool already passed the isinstance test above); otherwise the
string null when it is None; otherwise str(Y). -/
def normalize_param (v : PVal) : PVal :=
  if isinstance_str_float_int v then
    v
  else
    match v with
    | PVal.bool b => PVal.str (boolean_map b)
    | PVal.none => PVal.str "null"
    | w => PVal.str (pyStr_pval w)

/-- Embedding of LearnifyAPI.init_params: appends a query string
key=value joined by ampersands after a question mark when the mapping is
non-empty, and returns the url unchanged otherwise.  Each rendered value is
the f-string image of the normalized parameter. -/
def init_params (url : String) (params : List (String × PVal)) : String :=
  if params.isEmpty then
    url
  else
    url ++ "?" ++
      String.intercalate "&"
        (params.map (fun kv => kv.1 ++ "=" ++ pyStr_pval (normalize_param kv.2)))

/-- The value dict.get("description", str(json_response)) inside
_check_response, for a response whose JSON body parsed as a dict. -/
def dict_get_description (kvs : List (String × Json)) : Json :=
  match kvs.lookup "description" with
  | some v => v
  | Option.none => Json.str (pyReprJson (Json.obj kvs))

/-- Possible outcomes of LearnifyAPI._check_response. -/
inductive CheckOutcome where
  | ok
  | apiError (status_code : Nat) (message : Json)
  | nameError

/-- Embedding of LearnifyAPI._check_response.  For a status below 400 it
returns normally.  For a status of 400 or more it parses the body as JSON:
when the parse succeeds and yields a dict, it raises APIError with the
status and the description field (falling back to str of the dict); when
the parse succeeds but yields a non-dict value, no exception is raised and
the function returns normally; when the parse raises JSONDecodeError or
ContentTypeError, the except handler evaluates json_response.get on the
name json_response, which was never assigned, so the call raises NameError
instead of APIError. -/
def checkResponse (status : Nat) (parsed : Option Json) : CheckOutcome :=
  if 400 ≤ status then
    match parsed with
    | some (Json.obj kvs) => CheckOutcome.apiError status (dict_get_description kvs)
    | some _ => CheckOutcome.ok
    | Option.none => CheckOutcome.nameError
  else
    CheckOutcome.ok

/-- An HTTP response as the client observes it: status, body text, and the
result of parsing the body text as JSON (none when parsing fails). -/
structure Response where
  status : Nat
  bodyText : String
  parsed : Option Json

/-- The Python exception classes the client can raise. -/
inductive PyError where
  | apiError (status_code : Nat) (message : Json)
  | nameError
  | valueError (msg : String)
  | runtimeError (msg : String)
  | jsonDecodeError
  | validationError (msg : String)

/-- The possible successful results of LearnifyAPI.request. -/
inductive Outcome (α : Type) where
  | noneResult
  | rawResponse (r : Response)
  | jsonValue (j : Json)
  | text (s : String)
  | listResult (xs : Option (List α))
  | modelResult (a : α)
  | listOfNoneResult (xs : Option (List Unit))

/-- Sequencing of a pydantic element validator over a JSON array, failing on
the first invalid element. -/
def exceptMapList (f : α → Except ε β) : List α → Except ε (List β)
  | [] => Except.ok []
  | x :: xs => do
      let b ← f x
      let bs ← exceptMapList f xs
      pure (b :: bs)

/-- Validation of a JSON value against the root model list[model] | None
declared inside parse_list_models: null validates to an absent list, an
array validates elementwise, and anything else fails. -/
def parse_list_root (validate : Json → Except String α) :
    Json → Except String (Option (List α))
  | Json.null => Except.ok Option.none
  | Json.arr xs => (exceptMapList validate xs).map some
  | _ => Except.error "value is not a valid list"

/-- Embedding of LearnifyAPI.parse_list_models: pydantic model_validate_json
first parses the body text as JSON (raising a validation error when the text
is not valid JSON), then validates against list[model] | None. -/
def parse_list_models (validate : Json → Except String α) (parsed : Option Json) :
    Except String (Option (List α)) :=
  match parsed with
  | some j => parse_list_root validate j
  | Option.none => Except.error "Invalid JSON"

/-- Embedding of pydantic model.model_validate_json on the body text: parse
the text as JSON, then validate against the model. -/
def model_validate_json (validate : Json → Except String α) (parsed : Option Json) :
    Except String α :=
  match parsed with
  | some j => validate j
  | Option.none => Except.error "Invalid JSON"

/-- Validator of the element type NoneType, which is what list[model]
instantiates when request is called with is_list true and model None. -/
def validate_NoneType : Json → Except String Unit
  | Json.null => Except.ok ()
  | _ => Except.error "Input should be None"

/-- Embedding of the part of LearnifyAPI.request that runs once the
response object is available: check the response, read the body text,
short-circuit to None on an empty body, and otherwise pick exactly one
decode mode through the nested conditional of the source. -/
def request_decode (resp : Response) (model : Option (Json → Except String α))
    (is_list return_json return_raw_text return_raw_response : Bool) :
    Except PyError (Outcome α) :=
  match checkResponse resp.status resp.parsed with
  | CheckOutcome.apiError s m => Except.error (PyError.apiError s m)
  | CheckOutcome.nameError => Except.error PyError.nameError
  | CheckOutcome.ok =>
    if resp.bodyText = "" then
      Except.ok Outcome.noneResult
    else if return_raw_response then
      Except.ok (Outcome.rawResponse resp)
    else if return_json then
      match resp.parsed with
      | some j => Except.ok (Outcome.jsonValue j)
      | Option.none => Except.error PyError.jsonDecodeError
    else if return_raw_text then
      Except.ok (Outcome.text resp.bodyText)
    else if is_list then
      match model with
      | some v =>
          match parse_list_models v resp.parsed with
          | Except.ok xs => Except.ok (Outcome.listResult xs)
          | Except.error e => Except.error (PyError.validationError e)
      | Option.none =>
          match parse_list_models validate_NoneType resp.parsed with
          | Except.ok xs => Except.ok (Outcome.listOfNoneResult xs)
          | Except.error e => Except.error (PyError.validationError e)
    else
      match model with
      | some v =>
          match model_validate_json v resp.parsed with
          | Except.ok a => Except.ok (Outcome.modelResult a)
          | Except.error e => Except.error (PyError.validationError e)
      | Option.none => Except.ok (Outcome.text resp.bodyText)

/-- C1: the claim states that a status of 400 or more with a body that is
not parseable as JSON raises an API error with that status and a fallback
message, without crashing on an undefined value.  The code instead crashes:
the except handler re-references json_response, which was never assigned
when response.json() raised, so a status-500 response with a non-JSON body
raises NameError and never produces an APIError. -/
theorem check_response_500_non_json_crashes :
    checkResponse 500 Option.none = CheckOutcome.nameError ∧
    (∀ s m, checkResponse 500 Option.none ≠ CheckOutcome.apiError s m) := by
  constructor
  · rfl
  · intro s m h
    simp [checkResponse] at h

/-- C2: the claim states that boolean query-parameter values are rendered
as the lowercase strings true and false.  In the code, isinstance(True,
(str, float, int)) holds because bool is a subclass of int, so a boolean is
kept as-is and the f-string renders it with a capital letter; the lowercase
boolean dict is dead code.  Encoding the mapping flag to True yields
p?flag=True, not p?flag=true. -/
theorem init_params_bool_renders_python_repr :
    init_params "p" [("flag", PVal.bool true)] = "p?flag=True" ∧
    init_params "p" [("flag", PVal.bool true)] ≠ "p?flag=true" := by
  constructor
  · rfl
  · decide

/-- C3: the claim states that every status of 400 or more raises an API
error.  When the body parses as JSON that is not a dict, _check_response
raises nothing and request proceeds to decode the body normally: a
status-400 response with body [1] and the raw-text decode mode returns the
text as a success. -/
theorem request_400_non_object_body_no_error :
    checkResponse 400 (some (Json.arr [Json.num 1])) = CheckOutcome.ok ∧
    request_decode (α := Unit) (Response.mk 400 "[1]" (some (Json.arr [Json.num 1])))
        Option.none false false true false =
      Except.ok (Outcome.text "[1]") := by
  constructor
  · rfl
  · rfl

/-- The decode modes of the specification, as an explicit enumeration. -/
inductive DecodeMode where
  | rawResponseMode
  | rawJsonMode
  | rawTextMode
  | listMode
  | singleMode
  | noSchemaTextMode
deriving DecidableEq

/-- First mode in the list whose flag is true, or the default. -/
def firstTrue : List (Bool × DecodeMode) → DecodeMode → DecodeMode
  | [], dflt => dflt
  | (b, m) :: rest, dflt => if b then m else firstTrue rest dflt

/-- Modelled from the spec: the priority order of section 4.1 step 6 over
the decode-mode flags, as a first-match over an ordered list: raw response
object first; else parsed JSON; else raw text; else list of the target
schema; else a single instance of the target schema; else raw text when no
schema is given. -/
def spec_decode_mode (return_raw_response return_json return_raw_text is_list : Bool)
    (hasSchema : Bool) : DecodeMode :=
  firstTrue
    [(return_raw_response, DecodeMode.rawResponseMode),
     (return_json, DecodeMode.rawJsonMode),
     (return_raw_text, DecodeMode.rawTextMode),
     (is_list, DecodeMode.listMode),
     (hasSchema, DecodeMode.singleMode)]
    DecodeMode.noSchemaTextMode

/-- Interpretation of a single decode mode on a response.  The singleMode
arm with no schema is unreachable when the mode was selected by
spec_decode_mode with hasSchema tied to the presence of the schema. -/
def apply_decode_mode (resp : Response) (model : Option (Json → Except String α)) :
    DecodeMode → Except PyError (Outcome α)
  | DecodeMode.rawResponseMode => Except.ok (Outcome.rawResponse resp)
  | DecodeMode.rawJsonMode =>
      match resp.parsed with
      | some j => Except.ok (Outcome.jsonValue j)
      | Option.none => Except.error PyError.jsonDecodeError
  | DecodeMode.rawTextMode => Except.ok (Outcome.text resp.bodyText)
  | DecodeMode.listMode =>
      match model with
      | some v =>
          match parse_list_models v resp.parsed with
          | Except.ok xs => Except.ok (Outcome.listResult xs)
          | Except.error e => Except.error (PyError.validationError e)
      | Option.none =>
          match parse_list_models validate_NoneType resp.parsed with
          | Except.ok xs => Except.ok (Outcome.listOfNoneResult xs)
          | Except.error e => Except.error (PyError.validationError e)
  | DecodeMode.singleMode =>
      match model with
      | some v =>
          match model_validate_json v resp.parsed with
          | Except.ok a => Except.ok (Outcome.modelResult a)
          | Except.error e => Except.error (PyError.validationError e)
      | Option.none => Except.error (PyError.validationError "no schema given")
  | DecodeMode.noSchemaTextMode => Except.ok (Outcome.text resp.bodyText)

/-- C6: for every successful response whose body text is empty, request
returns None, for every combination of the decode-mode flags and any
schema. -/
theorem request_empty_body_returns_none {α : Type}
    (resp : Response) (model : Option (Json → Except String α))
    (is_list return_json return_raw_text return_raw_response : Bool)
    (h1 : resp.status < 400) (h2 : resp.bodyText = "") :
    request_decode resp model is_list return_json return_raw_text return_raw_response =
      Except.ok Outcome.noneResult := by
  unfold request_decode checkResponse
  rw [if_neg (by omega)]
  rw [if_pos h2]

/-- Witness for C6 at a concrete status-200 response with an empty body and
all decode flags set. -/
theorem request_empty_body_returns_none_witness :
    (200 : Nat) < 400 ∧
    request_decode (α := Unit) (Response.mk 200 "" Option.none)
        Option.none true true true true = Except.ok Outcome.noneResult :=
  ⟨by omega,
   request_empty_body_returns_none (Response.mk 200 "" Option.none)
     Option.none true true true true (by decide) rfl⟩

/-- C7: for every successful response with a non-empty body, request picks
exactly one decode mode, and it is the one the priority order of the
specification selects: raw response first, else parsed JSON, else raw
text, else list of the target schema, else a single instance of the
schema, else the raw text when no schema is given. -/
theorem request_decode_follows_priority {α : Type}
    (resp : Response) (model : Option (Json → Except String α))
    (is_list return_json return_raw_text return_raw_response : Bool)
    (h1 : resp.status < 400) (h2 : resp.bodyText ≠ "") :
    request_decode resp model is_list return_json return_raw_text return_raw_response =
      apply_decode_mode resp model
        (spec_decode_mode return_raw_response return_json return_raw_text is_list
          model.isSome) := by
  have hchk : checkResponse resp.status resp.parsed = CheckOutcome.ok := by
    unfold checkResponse
    rw [if_neg (by omega)]
  unfold request_decode
  rw [hchk]
  rw [if_neg h2]
  cases return_raw_response <;> cases return_json <;> cases return_raw_text <;>
    cases is_list <;> cases model <;>
      simp [spec_decode_mode, firstTrue, apply_decode_mode]

/-- Witness for C7 at a concrete response with body hello, no schema and
all flags false: both sides are the raw text. -/
theorem request_decode_follows_priority_witness :
    (200 : Nat) < 400 ∧ ("hello" : String) ≠ "" ∧
    request_decode (α := Unit) (Response.mk 200 "hello" Option.none)
        Option.none false false false false =
      apply_decode_mode (Response.mk 200 "hello" Option.none) Option.none
        (spec_decode_mode false false false false false) :=
  ⟨by omega, by decide,
   request_decode_follows_priority (Response.mk 200 "hello" Option.none)
     Option.none false false false false (by decide) (by decide)⟩

/-- A Python value supplied as a custom header to LearnifyAPI.headers.
Values that are neither a string nor None are carried by their str
rendering. -/
inductive HVal where
  | str (s : String)
  | none
  | other (repr : String)
deriving DecidableEq

/-- Rendering of a custom-header value by the Python built-in str. -/
def pyStr_hval : HVal → String
  | HVal.str s => s
  | HVal.none => "None"
  | HVal.other r => r

/-- The in-place replacement custom_headers[key] = str(value) applied to a
value that is not a string; a string is left untouched. -/
def strify_header : HVal → HVal
  | HVal.str s => HVal.str s
  | v => HVal.str (pyStr_hval v)

/-- The in-place mutation loop at the top of LearnifyAPI.headers: iterate
over a copy of the items, delete every entry whose value is None, and
replace every non-string value by its str image.  Deletion and in-place
overwrite preserve the relative order of the surviving keys. -/
def process_custom_headers (cs : List (String × HVal)) : List (String × HVal) :=
  (cs.filter (fun kv => kv.2 ≠ HVal.none)).map (fun kv => (kv.1, strify_header kv.2))

/-- The caller-visible custom-headers argument after LearnifyAPI.headers
ran: None stays None, and a dict is mutated in place (the guard
if custom_headers skips an empty dict, which the processing leaves
unchanged anyway). -/
def mutate_custom_headers : Option (List (String × HVal)) → Option (List (String × HVal))
  | Option.none => Option.none
  | some cs => some (process_custom_headers cs)

/-- Lookup of a key in an association list standing for a Python dict. -/
def alist_lookup (k : String) : List (String × β) → Option β
  | [] => Option.none
  | kv :: rest => if kv.1 = k then some kv.2 else alist_lookup k rest

/-- Assignment d[k] = v on a Python dict modeled as an ordered association
list: an existing key keeps its position and changes its value, a new key
is appended at the end. -/
def dict_set (d : List (String × β)) (k : String) (v : β) : List (String × β) :=
  if (alist_lookup k d).isSome then
    d.map (fun kv => if kv.1 = k then (k, v) else kv)
  else
    d ++ [(k, v)]

/-- The Python dict.update: assign every pair of upd in order. -/
def dict_update (d : List (String × β)) (upd : List (String × β)) :
    List (String × β) :=
  upd.foldl (fun acc kv => dict_set acc kv.1 kv.2) d

/-- The fixed base header dict HEADERS of LearnifyAPI.headers. -/
def base_headers : List (String × String) :=
  [("Content-Type", "application/json"),
   ("Accept", "application/json, text/plain, */*"),
   ("Accept-Language", "ru-RU,ru;q=0.8,en-US;q=0.5,en;q=0.3"),
   ("Accept-Encoding", "gzip, deflate, br"),
   ("Connection", "keep-alive")]

/-- The processed custom headers as the string-valued dict that
HEADERS.update(custom_headers or ...) receives. -/
def custom_final (custom0 : Option (List (String × HVal))) : List (String × String) :=
  ((mutate_custom_headers custom0).getD []).map (fun kv => (kv.1, pyStr_hval kv.2))

/-- The header dict after the token branch of LearnifyAPI.headers: the base
dict extended with the Authorization bearer entry when a token is
required. -/
def auth_base (token : String) (require_token : Bool) : List (String × String) :=
  if require_token then
    dict_set base_headers "Authorization" ("Bearer " ++ token)
  else
    base_headers

/-- Embedding of LearnifyAPI.headers: mutate the custom headers, fail with
ValueError when the token is empty while a token is required, otherwise
build the base dict with the bearer entry when required, and finally
overlay the custom headers. -/
def headers_fn (token : String) (require_token : Bool)
    (custom0 : Option (List (String × HVal))) :
    Except String (List (String × String)) :=
  if token = "" && require_token then
    Except.error "Token is required!"
  else
    Except.ok (dict_update (auth_base token require_token) (custom_final custom0))

theorem alist_lookup_nil {β : Type} (k : String) :
    alist_lookup (β := β) k [] = Option.none := rfl

theorem alist_lookup_cons {β : Type} (k : String) (kv : String × β)
    (t : List (String × β)) :
    alist_lookup k (kv :: t) = if kv.1 = k then some kv.2 else alist_lookup k t := rfl

theorem lookup_map_replace {β : Type} (k : String) (v : β) :
    ∀ d : List (String × β), (alist_lookup k d).isSome →
      alist_lookup k (d.map (fun kv => if kv.1 = k then (k, v) else kv)) = some v := by
  intro d
  induction d with
  | nil => intro h; simp [alist_lookup_nil] at h
  | cons kv t ih =>
    intro h
    by_cases hk : kv.1 = k
    · simp [List.map_cons, if_pos hk, alist_lookup_cons]
    · rw [alist_lookup_cons, if_neg hk] at h
      simp only [List.map_cons, if_neg hk, alist_lookup_cons, if_neg hk]
      exact ih h

theorem lookup_map_replace_ne {β : Type} (k k2 : String) (v : β) (hne : k2 ≠ k) :
    ∀ d : List (String × β),
      alist_lookup k2 (d.map (fun kv => if kv.1 = k then (k, v) else kv)) =
        alist_lookup k2 d := by
  intro d
  induction d with
  | nil => rfl
  | cons kv t ih =>
    by_cases hk : kv.1 = k
    · simp only [List.map_cons, if_pos hk, alist_lookup_cons]
      rw [if_neg (show ¬ ((k, v).1 = k2) from fun hc => hne hc.symm),
          if_neg (show ¬ (kv.1 = k2) from fun hc => hne (hc ▸ hk)), ih]
    · simp only [List.map_cons, if_neg hk, alist_lookup_cons]
      by_cases hk2 : kv.1 = k2
      · rw [if_pos hk2, if_pos hk2]
      · rw [if_neg hk2, if_neg hk2, ih]

theorem alist_lookup_append_single_ne {β : Type} (d : List (String × β))
    (k k2 : String) (v : β) (hne : k2 ≠ k) :
    alist_lookup k2 (d ++ [(k, v)]) = alist_lookup k2 d := by
  induction d with
  | nil =>
    simp only [List.nil_append, alist_lookup_cons, alist_lookup_nil]
    rw [if_neg (show ¬ ((k, v).1 = k2) from fun hc => hne hc.symm)]
  | cons kv t ih =>
    simp only [List.cons_append, alist_lookup_cons, ih]

theorem alist_lookup_append_single_self {β : Type} (d : List (String × β))
    (k : String) (v : β) (h : alist_lookup k d = Option.none) :
    alist_lookup k (d ++ [(k, v)]) = some v := by
  induction d with
  | nil => simp [alist_lookup_cons]
  | cons kv t ih =>
    rw [alist_lookup_cons] at h
    by_cases hk : kv.1 = k
    · rw [if_pos hk] at h
      exact absurd h (by simp)
    · rw [if_neg hk] at h
      simp only [List.cons_append, alist_lookup_cons, if_neg hk]
      exact ih h

theorem dict_set_lookup_self {β : Type} (d : List (String × β)) (k : String) (v : β) :
    alist_lookup k (dict_set d k v) = some v := by
  unfold dict_set
  by_cases h : (alist_lookup k d).isSome
  · rw [if_pos h]
    exact lookup_map_replace k v d h
  · rw [if_neg h]
    exact alist_lookup_append_single_self d k v (Option.not_isSome_iff_eq_none.mp h)

theorem dict_set_lookup_ne {β : Type} (d : List (String × β)) (k k2 : String)
    (v : β) (hne : k2 ≠ k) :
    alist_lookup k2 (dict_set d k v) = alist_lookup k2 d := by
  unfold dict_set
  by_cases h : (alist_lookup k d).isSome
  · rw [if_pos h]
    exact lookup_map_replace_ne k k2 v hne d
  · rw [if_neg h]
    exact alist_lookup_append_single_ne d k k2 v hne

theorem dict_update_lookup_not_key {β : Type} (k : String) :
    ∀ (upd : List (String × β)) (d : List (String × β)),
      (∀ w, (k, w) ∉ upd) →
        alist_lookup k (dict_update d upd) = alist_lookup k d := by
  intro upd
  induction upd with
  | nil => intro d _; rfl
  | cons kv t ih =>
    obtain ⟨k1, v1⟩ := kv
    intro d h
    simp only [dict_update, List.foldl_cons]
    have htail : ∀ w, (k, w) ∉ t := fun w hw => h w (List.mem_cons_of_mem _ hw)
    have hstep := ih (dict_set d k1 v1) htail
    simp only [dict_update] at hstep
    rw [hstep]
    apply dict_set_lookup_ne
    intro hc
    exact h v1 (by rw [hc]; exact List.mem_cons_self _ _)

theorem dict_update_lookup_mem {β : Type} (k : String) (v : β) :
    ∀ (upd : List (String × β)) (d : List (String × β)),
      (upd.map Prod.fst).Nodup → (k, v) ∈ upd →
        alist_lookup k (dict_update d upd) = some v := by
  intro upd
  induction upd with
  | nil => intro d _ h; simp at h
  | cons kv t ih =>
    obtain ⟨k1, v1⟩ := kv
    intro d hnd hm
    simp only [List.map_cons, List.nodup_cons] at hnd
    simp only [dict_update, List.foldl_cons]
    rcases List.mem_cons.mp hm with heq | ht
    · cases heq
      have hnot : ∀ w, (k, w) ∉ t := by
        intro w hw
        exact hnd.1 (List.mem_map_of_mem Prod.fst hw)
      have hstep := dict_update_lookup_not_key k t (dict_set d k v) hnot
      simp only [dict_update] at hstep
      rw [hstep]
      exact dict_set_lookup_self d k v
    · have hstep := ih (dict_set d k1 v1) hnd.2 ht
      simp only [dict_update] at hstep
      exact hstep

theorem dict_set_lookup_isSome {β : Type} (d : List (String × β)) (k2 k : String)
    (v : β) (h : (alist_lookup k2 d).isSome) :
    (alist_lookup k2 (dict_set d k v)).isSome := by
  by_cases hk : k2 = k
  · subst hk
    rw [dict_set_lookup_self]
    rfl
  · rw [dict_set_lookup_ne d k k2 v hk]
    exact h

theorem dict_update_lookup_isSome {β : Type} (k2 : String) :
    ∀ (upd : List (String × β)) (d : List (String × β)),
      (alist_lookup k2 d).isSome →
        (alist_lookup k2 (dict_update d upd)).isSome := by
  intro upd
  induction upd with
  | nil => intro d h; exact h
  | cons kv t ih =>
    intro d h
    simp only [dict_update, List.foldl_cons]
    have hstep := ih (dict_set d kv.1 kv.2) (dict_set_lookup_isSome d k2 kv.1 kv.2 h)
    simp only [dict_update] at hstep
    exact hstep

theorem dict_update_lookup_isSome_of_mem {β : Type} (k : String) (w : β) :
    ∀ (upd : List (String × β)) (d : List (String × β)),
      (k, w) ∈ upd → (alist_lookup k (dict_update d upd)).isSome := by
  intro upd
  induction upd with
  | nil => intro d h; simp at h
  | cons kv t ih =>
    obtain ⟨k1, v1⟩ := kv
    intro d hm
    simp only [dict_update, List.foldl_cons]
    rcases List.mem_cons.mp hm with heq | ht
    · cases heq
      have hstep := dict_update_lookup_isSome k t (dict_set d k w)
        (by rw [dict_set_lookup_self]; rfl)
      simp only [dict_update] at hstep
      exact hstep
    · have hstep := ih (dict_set d k1 v1) ht
      simp only [dict_update] at hstep
      exact hstep

theorem auth_base_true (token : String) :
    auth_base token true =
      dict_set base_headers "Authorization" ("Bearer " ++ token) := rfl

theorem auth_base_false (token : String) : auth_base token false = base_headers := rfl

theorem base_mem_lookup (k v : String) (h : (k, v) ∈ base_headers) :
    alist_lookup k base_headers = some v ∧ k ≠ "Authorization" := by
  simp only [base_headers, List.mem_cons, List.not_mem_nil, or_false,
    Prod.mk.injEq] at h
  rcases h with ⟨rfl, rfl⟩ | ⟨rfl, rfl⟩ | ⟨rfl, rfl⟩ | ⟨rfl, rfl⟩ | ⟨rfl, rfl⟩ <;>
    exact ⟨by decide, by decide⟩

theorem strify_header_eq (v : HVal) :
    strify_header v = HVal.str (pyStr_hval v) := by
  cases v <;> rfl

theorem nodup_keys_val_eq {β : Type} :
    ∀ (cs : List (String × β)) (k : String) (a b : β),
      (cs.map Prod.fst).Nodup → (k, a) ∈ cs → (k, b) ∈ cs → a = b := by
  intro cs
  induction cs with
  | nil => intro k a b _ ha; simp at ha
  | cons kv t ih =>
    obtain ⟨k1, v1⟩ := kv
    intro k a b hnd ha hb
    simp only [List.map_cons, List.nodup_cons] at hnd
    rcases List.mem_cons.mp ha with hha | hha
    · rcases List.mem_cons.mp hb with hhb | hhb
      · cases hha; cases hhb; rfl
      · cases hha
        exact absurd (List.mem_map_of_mem Prod.fst hhb) hnd.1
    · rcases List.mem_cons.mp hb with hhb | hhb
      · cases hhb
        exact absurd (List.mem_map_of_mem Prod.fst hha) hnd.1
      · exact ih k a b hnd.2 hha hhb

theorem custom_final_keys (cs : List (String × HVal)) :
    (custom_final (some cs)).map Prod.fst =
      (cs.filter (fun kv => kv.2 ≠ HVal.none)).map Prod.fst := by
  simp [custom_final, mutate_custom_headers, process_custom_headers,
    List.map_map, Function.comp]

/-- C10: LearnifyAPI.headers mutates the caller-supplied custom-headers
dict in place.  The mutated dict is process_custom_headers of the original:
every value it holds is a string; every surviving entry is the original one
with its value stringified; every None-valued key is gone (for a dict,
whose keys are unique); and the mutated dict differs from the original
exactly when the original held a None-valued or non-string entry. -/
theorem custom_headers_mutation_spec (cs : List (String × HVal)) :
    mutate_custom_headers (some cs) = some (process_custom_headers cs) ∧
    (∀ kv ∈ process_custom_headers cs, ∃ s, kv.2 = HVal.str s) ∧
    (∀ k v, (k, v) ∈ cs → v ≠ HVal.none →
      (k, HVal.str (pyStr_hval v)) ∈ process_custom_headers cs) ∧
    ((cs.map Prod.fst).Nodup → ∀ k, (k, HVal.none) ∈ cs →
      ∀ w, (k, w) ∉ process_custom_headers cs) ∧
    ((∃ kv, kv ∈ cs ∧ (kv.2 = HVal.none ∨ ∀ s, kv.2 ≠ HVal.str s)) →
      process_custom_headers cs ≠ cs) := by
  have hall : ∀ kv ∈ process_custom_headers cs, ∃ s, kv.2 = HVal.str s := by
    intro kv hkv
    obtain ⟨kv0, _, rfl⟩ := List.mem_map.mp hkv
    exact ⟨pyStr_hval kv0.2, strify_header_eq kv0.2⟩
  refine ⟨rfl, hall, ?_, ?_, ?_⟩
  · intro k v hv hne
    have hf : (k, v) ∈ cs.filter (fun kv => kv.2 ≠ HVal.none) :=
      List.mem_filter.mpr ⟨hv, decide_eq_true hne⟩
    have hm := List.mem_map_of_mem (fun kv => (kv.1, strify_header kv.2)) hf
    simpa [process_custom_headers, strify_header_eq] using hm
  · intro hnd k hk w hw
    obtain ⟨⟨k0, v0⟩, hmf, heq⟩ := List.mem_map.mp hw
    obtain ⟨hin, hp⟩ := List.mem_filter.mp hmf
    have hk0 : k0 = k := by
      have := congrArg Prod.fst heq
      simpa using this
    subst hk0
    have hne : v0 ≠ HVal.none := of_decide_eq_true hp
    exact hne (nodup_keys_val_eq cs k0 v0 HVal.none hnd hin hk)
  · rintro ⟨kv0, hmem, hbad⟩ heq
    rw [← heq] at hmem
    obtain ⟨s, hs⟩ := hall kv0 hmem
    rcases hbad with hb | hb
    · rw [hb] at hs
      exact absurd hs (by simp)
    · exact hb s hs

/-- Witness for C10 at a concrete custom-header dict holding a string, a
None and an integer-like value: the non-string survives stringified and the
mutated dict differs from the original. -/
theorem custom_headers_mutation_spec_witness :
    ("C", HVal.str "7") ∈
      process_custom_headers
        [("A", HVal.str "x"), ("B", HVal.none), ("C", HVal.other "7")] ∧
    process_custom_headers
        [("A", HVal.str "x"), ("B", HVal.none), ("C", HVal.other "7")] ≠
      [("A", HVal.str "x"), ("B", HVal.none), ("C", HVal.other "7")] :=
  ⟨((custom_headers_mutation_spec
      [("A", HVal.str "x"), ("B", HVal.none), ("C", HVal.other "7")]).2.2.1
      "C" (HVal.other "7") (by decide) (by decide)),
   ((custom_headers_mutation_spec
      [("A", HVal.str "x"), ("B", HVal.none), ("C", HVal.other "7")]).2.2.2.2
      ⟨("B", HVal.none), by decide, Or.inl rfl⟩)⟩

/-- Embedding of LearnifyAPI.request as a whole, with the HTTP transport
passed as a function from method, url, headers and JSON body to the
response it would produce.  The session check comes first, then header
construction (whose ValueError propagates before the transport is ever
consulted), then the transport call on the encoded url, then the
response check and decode. -/
def request_fn {α : Type} (session : Bool) (token : String)
    (method base_url path : String)
    (custom0 : Option (List (String × HVal)))
    (model : Option (Json → Except String α))
    (is_list return_json return_raw_text required_token return_raw_response : Bool)
    (params : List (String × PVal))
    (body : Option (List (String × Json)))
    (transport : String → String → List (String × String) →
      Option (List (String × Json)) → Response) :
    Except PyError (Outcome α) :=
  if session then
    match headers_fn token required_token custom0 with
    | Except.error m => Except.error (PyError.valueError m)
    | Except.ok hs =>
        request_decode (transport method (init_params (base_url ++ path) params) hs body)
          model is_list return_json return_raw_text return_raw_response
  else
    Except.error (PyError.runtimeError "Session not initialized.")

/-- C5: header construction.  When a token is required and none is
configured, headers_fn fails with the ValueError, and the whole request
operation fails with that configuration error for every transport
whatsoever, so no request is ever dispatched.  On success the result
contains every fixed base header (with its base value when no custom
header overrides its key), contains the Authorization bearer entry when a
token was required and no custom header overrides it, and gives every
surviving custom header the final say with its stringified value;
None-valued custom entries were dropped beforehand. -/
theorem headers_construction_spec (token : String) (rt : Bool)
    (custom0 : Option (List (String × HVal))) :
    (rt = true → token = "" →
      headers_fn token rt custom0 = Except.error "Token is required!") ∧
    (rt = true → token = "" →
      ∀ (α : Type) (method base_url path : String)
        (model : Option (Json → Except String α))
        (il rj rtx rr : Bool) (params : List (String × PVal))
        (body : Option (List (String × Json)))
        (transport : String → String → List (String × String) →
          Option (List (String × Json)) → Response),
        request_fn true token method base_url path custom0 model
            il rj rtx rt rr params body transport =
          Except.error (PyError.valueError "Token is required!")) ∧
    (∀ hs, headers_fn token rt custom0 = Except.ok hs →
      (∀ k v, (k, v) ∈ base_headers → (alist_lookup k hs).isSome) ∧
      (∀ k v, (k, v) ∈ base_headers → (∀ w, (k, w) ∉ custom_final custom0) →
        alist_lookup k hs = some v) ∧
      (rt = true → (∀ w, ("Authorization", w) ∉ custom_final custom0) →
        alist_lookup "Authorization" hs = some ("Bearer " ++ token)) ∧
      (∀ cs k v, custom0 = some cs → (cs.map Prod.fst).Nodup →
        (k, v) ∈ cs → v ≠ HVal.none →
        alist_lookup k hs = some (pyStr_hval v))) := by
  refine ⟨?_, ?_, ?_⟩
  · intro hrt htok
    unfold headers_fn
    rw [htok, hrt]
    rfl
  · rintro rfl rfl
    intro α method base_url path model il rj rtx rr params body transport
    rfl
  · intro hs h
    unfold headers_fn at h
    by_cases hc : (token = "" && rt) = true
    · rw [if_pos hc] at h
      exact absurd h (by simp)
    · rw [if_neg hc] at h
      have hhs : hs = dict_update (auth_base token rt) (custom_final custom0) := by
        cases h; rfl
      subst hhs
      refine ⟨?_, ?_, ?_, ?_⟩
      · intro k v hmem
        by_cases hex : ∃ w, (k, w) ∈ custom_final custom0
        · obtain ⟨w, hw⟩ := hex
          exact dict_update_lookup_isSome_of_mem k w (custom_final custom0) _ hw
        · push_neg at hex
          rw [dict_update_lookup_not_key k (custom_final custom0) _ hex]
          obtain ⟨hb, ha⟩ := base_mem_lookup k v hmem
          cases rt
          · rw [auth_base_false, hb]
            rfl
          · rw [auth_base_true,
              dict_set_lookup_ne base_headers "Authorization" k _ ha, hb]
            rfl
      · intro k v hmem hnot
        rw [dict_update_lookup_not_key k (custom_final custom0) _ hnot]
        obtain ⟨hb, ha⟩ := base_mem_lookup k v hmem
        cases rt
        · rw [auth_base_false]
          exact hb
        · rw [auth_base_true,
            dict_set_lookup_ne base_headers "Authorization" k _ ha]
          exact hb
      · intro hrt hnot
        subst hrt
        rw [dict_update_lookup_not_key "Authorization" (custom_final custom0) _ hnot]
        rw [auth_base_true]
        exact dict_set_lookup_self base_headers "Authorization" ("Bearer " ++ token)
      · intro cs k v hcs hnd hvmem hvne
        subst hcs
        have hmemf : (k, pyStr_hval v) ∈ custom_final (some cs) := by
          have hf : (k, v) ∈ cs.filter (fun kv => kv.2 ≠ HVal.none) :=
            List.mem_filter.mpr ⟨hvmem, decide_eq_true hvne⟩
          have hm := List.mem_map_of_mem
            (fun kv => (kv.1, strify_header kv.2)) hf
          have hm2 := List.mem_map_of_mem
            (fun kv => (kv.1, pyStr_hval kv.2)) hm
          simpa [custom_final, mutate_custom_headers, process_custom_headers,
            strify_header_eq] using hm2
        have hndf : ((custom_final (some cs)).map Prod.fst).Nodup := by
          rw [custom_final_keys]
          exact ((List.filter_sublist cs).map Prod.fst).nodup hnd
        exact dict_update_lookup_mem k (pyStr_hval v) (custom_final (some cs)) _
          hndf hmemf

/-- Witness for C5: with no token and auth required the call fails, and a
concrete request with a concrete spy transport fails with the same
configuration error; with a token and a custom dict holding an
integer-like entry and a None entry, the result holds the base content
type, the bearer token and the stringified custom entry. -/
theorem headers_construction_spec_witness :
    headers_fn "" true Option.none = Except.error "Token is required!" ∧
    request_fn (α := Unit) true "" "GET" "https://b" "/p" Option.none
        Option.none false false false true false [] Option.none
        (fun _ _ _ _ => Response.mk 200 "" Option.none) =
      Except.error (PyError.valueError "Token is required!") ∧
    alist_lookup "Content-Type"
      [("Content-Type", "application/json"),
       ("Accept", "application/json, text/plain, */*"),
       ("Accept-Language", "ru-RU,ru;q=0.8,en-US;q=0.5,en;q=0.3"),
       ("Accept-Encoding", "gzip, deflate, br"),
       ("Connection", "keep-alive"),
       ("Authorization", "Bearer tok"),
       ("X-Count", "5")] = some "application/json" ∧
    alist_lookup "Authorization"
      [("Content-Type", "application/json"),
       ("Accept", "application/json, text/plain, */*"),
       ("Accept-Language", "ru-RU,ru;q=0.8,en-US;q=0.5,en;q=0.3"),
       ("Accept-Encoding", "gzip, deflate, br"),
       ("Connection", "keep-alive"),
       ("Authorization", "Bearer tok"),
       ("X-Count", "5")] = some "Bearer tok" ∧
    alist_lookup "X-Count"
      [("Content-Type", "application/json"),
       ("Accept", "application/json, text/plain, */*"),
       ("Accept-Language", "ru-RU,ru;q=0.8,en-US;q=0.5,en;q=0.3"),
       ("Accept-Encoding", "gzip, deflate, br"),
       ("Connection", "keep-alive"),
       ("Authorization", "Bearer tok"),
       ("X-Count", "5")] = some "5" := by
  have hok : headers_fn "tok" true
      (some [("X-Count", HVal.other "5"), ("Drop-Me", HVal.none)]) =
      Except.ok
        [("Content-Type", "application/json"),
         ("Accept", "application/json, text/plain, */*"),
         ("Accept-Language", "ru-RU,ru;q=0.8,en-US;q=0.5,en;q=0.3"),
         ("Accept-Encoding", "gzip, deflate, br"),
         ("Connection", "keep-alive"),
         ("Authorization", "Bearer tok"),
         ("X-Count", "5")] := rfl
  have hcf : custom_final (some [("X-Count", HVal.other "5"), ("Drop-Me", HVal.none)]) =
      [("X-Count", "5")] := rfl
  have hmain := (headers_construction_spec "tok" true
      (some [("X-Count", HVal.other "5"), ("Drop-Me", HVal.none)])).2.2 _ hok
  refine ⟨(headers_construction_spec "" true Option.none).1 rfl rfl,
    (headers_construction_spec "" true Option.none).2.1 rfl rfl Unit
      "GET" "https://b" "/p" Option.none false false false false [] Option.none
      (fun _ _ _ _ => Response.mk 200 "" Option.none), ?_, ?_, ?_⟩
  · refine hmain.2.1 "Content-Type" "application/json" (by decide) ?_
    intro w hw
    rw [hcf] at hw
    have hfst : ("Content-Type" : String) = "X-Count" :=
      congrArg Prod.fst (List.mem_singleton.mp hw)
    exact absurd hfst (by decide)
  · refine hmain.2.2.1 rfl ?_
    intro w hw
    rw [hcf] at hw
    have hfst : ("Authorization" : String) = "X-Count" :=
      congrArg Prod.fst (List.mem_singleton.mp hw)
    exact absurd hfst (by decide)
  · exact hmain.2.2.2 [("X-Count", HVal.other "5"), ("Drop-Me", HVal.none)]
      "X-Count" (HVal.other "5") rfl (by decide) (by decide) (by decide)

/-- A Python datetime.date value: the constructor of date enforces
1 <= year <= 9999, 1 <= month <= 12 and a valid day of month. -/
structure PyDate where
  year : Nat
  month : Nat
  day : Nat

/-- Zero padding of a decimal rendering to a fixed width, the semantics of
the C format %0wd used by date.isoformat: pad with leading zero characters
up to the width, never truncating. -/
def py_zero_pad (w n : Nat) : String :=
  String.mk (List.replicate (w - (Nat.repr n).length) (Char.ofNat 48)) ++ Nat.repr n

/-- Embedding of the Python method date.isoformat, the C format
%04d-%02d-%02d over year, month and day. -/
def pydate_isoformat (d : PyDate) : String :=
  py_zero_pad 4 d.year ++ "-" ++ py_zero_pad 2 d.month ++ "-" ++ py_zero_pad 2 d.day

theorem py_zero_pad_length (w n : Nat) (h : (Nat.repr n).length ≤ w) :
    (py_zero_pad w n).length = w := by
  unfold py_zero_pad
  rw [String.length_append]
  have hm : (String.mk (List.replicate (w - (Nat.repr n).length) (Char.ofNat 48))).length
      = (List.replicate (w - (Nat.repr n).length) (Char.ofNat 48)).length := rfl
  rw [hm, List.length_replicate]
  omega

/-- The Book schema of src/learnifyapi/types/api/gdz.py. -/
structure Book where
  id : Int
  user_id : Int
  subject_id : Option Int
  subject_name : Option String
  url : String
  search_by : String

/-- The User schema of src/learnifyapi/types/api/user.py; the DT timestamp
type is declared in learnifyapi/types/model.py, which is not part of the
sources, so timestamps are carried as their wire strings. -/
structure User where
  id : Int
  user_id : Int
  payed_at : Option String
  expires_at : Option String
  is_active : Bool
  plan_type : String

/-- Pydantic coercion of a JSON value into a required int field. -/
def jsonToInt : Json → Except String Int
  | Json.num n => Except.ok n
  | _ => Except.error "Input should be a valid integer"

/-- Pydantic coercion of a JSON value into a required str field. -/
def jsonToStr : Json → Except String String
  | Json.str s => Except.ok s
  | _ => Except.error "Input should be a valid string"

/-- Pydantic coercion of a JSON value into a required bool field. -/
def jsonToBool : Json → Except String Bool
  | Json.bool b => Except.ok b
  | _ => Except.error "Input should be a valid boolean"

/-- Pydantic coercion of a JSON value into an Optional[int] field: null is
an allowed value. -/
def jsonToOptInt : Json → Except String (Option Int)
  | Json.null => Except.ok Option.none
  | Json.num n => Except.ok (some n)
  | _ => Except.error "Input should be a valid integer"

/-- Pydantic coercion of a JSON value into an Optional[str] field. -/
def jsonToOptStr : Json → Except String (Option String)
  | Json.null => Except.ok Option.none
  | Json.str s => Except.ok (some s)
  | _ => Except.error "Input should be a valid string"

/-- Lookup of a required field: pydantic fails when the key is absent. -/
def requireField (kvs : List (String × Json)) (k : String)
    (f : Json → Except String α) : Except String α :=
  match alist_lookup k kvs with
  | some v => f v
  | Option.none => Except.error ("Field required: " ++ k)

/-- Lookup of a field with a None default: an absent key validates to
none. -/
def optionalField (kvs : List (String × Json)) (k : String)
    (f : Json → Except String (Option α)) : Except String (Option α) :=
  match alist_lookup k kvs with
  | some v => f v
  | Option.none => Except.ok Option.none

/-- Validation of a JSON value against the Book schema: all six fields are
required; subject_id and subject_name accept null. -/
def validateBook (j : Json) : Except String Book :=
  match j with
  | Json.obj kvs => do
      let idv ← requireField kvs "id" jsonToInt
      let uidv ← requireField kvs "user_id" jsonToInt
      let sid ← requireField kvs "subject_id" jsonToOptInt
      let sname ← requireField kvs "subject_name" jsonToOptStr
      let urlv ← requireField kvs "url" jsonToStr
      let sby ← requireField kvs "search_by" jsonToStr
      Except.ok (Book.mk idv uidv sid sname urlv sby)
  | _ => Except.error "Input should be an object"

/-- Validation of a JSON value against the User schema: payed_at and
expires_at default to None, the other four fields are required. -/
def validateUser (j : Json) : Except String User :=
  match j with
  | Json.obj kvs => do
      let idv ← requireField kvs "id" jsonToInt
      let uidv ← requireField kvs "user_id" jsonToInt
      let pay ← optionalField kvs "payed_at" jsonToOptStr
      let exp ← optionalField kvs "expires_at" jsonToOptStr
      let act ← requireField kvs "is_active" jsonToBool
      let plan ← requireField kvs "plan_type" jsonToStr
      Except.ok (User.mk idv uidv pay exp act plan)
  | _ => Except.error "Input should be an object"

/-- The body dict LearnifyAPI.update_user builds: only the provided
fields, in the fixed order of the source. -/
def update_user_body (expires_at : Option PyDate) (plan_type : Option String)
    (is_active : Option Bool) : List (String × Json) :=
  (match expires_at with
   | some d => [("expires_at", Json.str (pydate_isoformat d))]
   | Option.none => []) ++
  (match plan_type with
   | some p => [("plan_type", Json.str p)]
   | Option.none => []) ++
  (match is_active with
   | some b => [("is_active", Json.bool b)]
   | Option.none => [])

/-- Embedding of LearnifyAPI.update_user: build the body from the provided
fields, raise ValueError when it is empty, and only otherwise issue the PUT
request. -/
def update_user (session : Bool) (token base_url : String) (user_id : Int)
    (expires_at : Option PyDate) (plan_type : Option String) (is_active : Option Bool)
    (transport : String → String → List (String × String) →
      Option (List (String × Json)) → Response) :
    Except PyError (Outcome User) :=
  let body := update_user_body expires_at plan_type is_active
  if body.isEmpty then
    Except.error (PyError.valueError "No fields provided for update")
  else
    request_fn session token "PUT" base_url ("/premium/users/" ++ toString user_id)
      Option.none (some validateUser) false false false true false [] (some body)
      transport

/-- The body dict LearnifyAPI.update_book builds: only the provided
fields, in the fixed order of the source. -/
def update_book_body (url : Option String) (subject_id : Option Int)
    (subject_name : Option String) (search_by : Option String) :
    List (String × Json) :=
  (match url with
   | some u => [("url", Json.str u)]
   | Option.none => []) ++
  (match subject_id with
   | some i => [("subject_id", Json.num i)]
   | Option.none => []) ++
  (match subject_name with
   | some s => [("subject_name", Json.str s)]
   | Option.none => []) ++
  (match search_by with
   | some s => [("search_by", Json.str s)]
   | Option.none => [])

/-- Embedding of LearnifyAPI.update_book: build the body from the provided
fields, raise ValueError when it is empty, and only otherwise issue the PUT
request with the user_id query parameter. -/
def update_book (session : Bool) (token base_url : String) (user_id book_id : Int)
    (url : Option String) (subject_id : Option Int) (subject_name : Option String)
    (search_by : Option String)
    (transport : String → String → List (String × String) →
      Option (List (String × Json)) → Response) :
    Except PyError (Outcome Book) :=
  let body := update_book_body url subject_id subject_name search_by
  if body.isEmpty then
    Except.error (PyError.valueError "No fields provided for update")
  else
    request_fn session token "PUT" base_url ("/premium/gdz/books/" ++ toString book_id)
      Option.none (some validateBook) false false false true false
      [("user_id", PVal.int user_id)] (some body) transport

/-- The body dict LearnifyAPI.create_user builds: user_id always, then
expires_at as its isoformat string when provided, then plan_type when
provided. -/
def create_user_body (user_id : Int) (expires_at : Option PyDate)
    (plan_type : Option String) : List (String × Json) :=
  [("user_id", Json.num user_id)] ++
  (match expires_at with
   | some d => [("expires_at", Json.str (pydate_isoformat d))]
   | Option.none => []) ++
  (match plan_type with
   | some p => [("plan_type", Json.str p)]
   | Option.none => [])

/-- Embedding of LearnifyAPI.create_user: POST the body to /premium/users
and decode a User. -/
def create_user (session : Bool) (token base_url : String) (user_id : Int)
    (expires_at : Option PyDate) (plan_type : Option String)
    (transport : String → String → List (String × String) →
      Option (List (String × Json)) → Response) :
    Except PyError (Outcome User) :=
  request_fn session token "POST" base_url "/premium/users"
    Option.none (some validateUser) false false false true false []
    (some (create_user_body user_id expires_at plan_type)) transport

/-- C4: update_user with all optional fields absent and update_book with
all optional fields absent both raise the ValueError before the request,
for every transport whatsoever, so the transport is never consulted and no
client state is touched (the embedding threads no state at all). -/
theorem update_with_no_fields_fails (session : Bool) (token base_url : String)
    (user_id book_id : Int)
    (t1 : String → String → List (String × String) →
      Option (List (String × Json)) → Response)
    (t2 : String → String → List (String × String) →
      Option (List (String × Json)) → Response) :
    update_user session token base_url user_id Option.none Option.none Option.none t1 =
      Except.error (PyError.valueError "No fields provided for update") ∧
    update_book session token base_url user_id book_id Option.none Option.none
        Option.none Option.none t2 =
      Except.error (PyError.valueError "No fields provided for update") :=
  ⟨rfl, rfl⟩

theorem exceptMapList_forall2 {α β : Type} (f : α → Except String β) :
    ∀ (xs : List α) (bs : List β),
      List.Forall₂ (fun x b => f x = Except.ok b) xs bs →
      exceptMapList f xs = Except.ok bs := by
  intro xs bs h
  induction h with
  | nil => rfl
  | cons hfb _ ih =>
    unfold exceptMapList
    rw [hfb]
    simp only [bind, Except.bind, ih]
    rfl

/-- C8: list-decoding a JSON array against the Book schema yields the Book
records in the order of the array elements, and list-decoding the JSON
value null yields the absent result rather than an error. -/
theorem parse_list_books (xs : List Json) (bs : List Book)
    (h : List.Forall₂ (fun j b => validateBook j = Except.ok b) xs bs) :
    parse_list_models validateBook (some (Json.arr xs)) = Except.ok (some bs) ∧
    parse_list_models validateBook (some Json.null) = Except.ok Option.none := by
  constructor
  · show Except.map some (exceptMapList validateBook xs) = Except.ok (some bs)
    rw [exceptMapList_forall2 validateBook xs bs h]
    rfl
  · rfl

/-- Witness for C8 at a concrete two-element array of book objects and the
null body. -/
theorem parse_list_books_witness :
    parse_list_models validateBook
        (some (Json.arr
          [Json.obj
            [("id", Json.num 1), ("user_id", Json.num 2),
             ("subject_id", Json.null), ("subject_name", Json.str "math"),
             ("url", Json.str "u1"), ("search_by", Json.str "name")],
           Json.obj
            [("id", Json.num 3), ("user_id", Json.num 2),
             ("subject_id", Json.num 7), ("subject_name", Json.null),
             ("url", Json.str "u2"), ("search_by", Json.str "id")]])) =
      Except.ok (some
        [Book.mk 1 2 Option.none (some "math") "u1" "name",
         Book.mk 3 2 (some 7) Option.none "u2" "id"]) ∧
    parse_list_models validateBook (some Json.null) = Except.ok Option.none :=
  parse_list_books
    [Json.obj
      [("id", Json.num 1), ("user_id", Json.num 2),
       ("subject_id", Json.null), ("subject_name", Json.str "math"),
       ("url", Json.str "u1"), ("search_by", Json.str "name")],
     Json.obj
      [("id", Json.num 3), ("user_id", Json.num 2),
       ("subject_id", Json.num 7), ("subject_name", Json.null),
       ("url", Json.str "u2"), ("search_by", Json.str "id")]]
    [Book.mk 1 2 Option.none (some "math") "u1" "name",
     Book.mk 3 2 (some 7) Option.none "u2" "id"]
    (List.Forall₂.cons rfl (List.Forall₂.cons rfl List.Forall₂.nil))

/-- C9: the serialized create_user body always holds user_id; it holds
expires_at exactly when the argument was provided, serialized through
date.isoformat, and plan_type exactly when provided; and for a date within
the ranges the Python date type enforces, the isoformat string is a
dash-separated triple of a four-character year and two-character
zero-padded month and day. -/
theorem create_user_body_spec (user_id : Int) (ea : Option PyDate)
    (pt : Option String) :
    alist_lookup "user_id" (create_user_body user_id ea pt) =
      some (Json.num user_id) ∧
    (ea = Option.none →
      alist_lookup "expires_at" (create_user_body user_id ea pt) = Option.none) ∧
    (∀ d, ea = some d →
      alist_lookup "expires_at" (create_user_body user_id ea pt) =
        some (Json.str (pydate_isoformat d))) ∧
    (pt = Option.none →
      alist_lookup "plan_type" (create_user_body user_id ea pt) = Option.none) ∧
    (∀ p, pt = some p →
      alist_lookup "plan_type" (create_user_body user_id ea pt) =
        some (Json.str p)) ∧
    (∀ d, ea = some d → d.year ≤ 9999 → d.month ≤ 99 → d.day ≤ 99 →
      ∃ ys ms ds, pydate_isoformat d = ys ++ "-" ++ ms ++ "-" ++ ds ∧
        ys.length = 4 ∧ ms.length = 2 ∧ ds.length = 2) := by
  refine ⟨?_, ?_, ?_, ?_, ?_, ?_⟩
  · rcases ea with _ | d <;> rcases pt with _ | p <;> rfl
  · rintro rfl
    rcases pt with _ | p <;> rfl
  · rintro d rfl
    rcases pt with _ | p <;> rfl
  · rintro rfl
    rcases ea with _ | d <;> rfl
  · rintro p rfl
    rcases ea with _ | d <;> rfl
  · rintro d rfl hy hm hd
    refine ⟨py_zero_pad 4 d.year, py_zero_pad 2 d.month, py_zero_pad 2 d.day,
      by unfold pydate_isoformat; rw [String.append_assoc, String.append_assoc],
      ?_, ?_, ?_⟩
    · exact py_zero_pad_length 4 d.year
        (Nat.repr_length d.year 4 (by norm_num)
          (by rw [show (10 : Nat) ^ 4 = 10000 from by norm_num]; omega))
    · exact py_zero_pad_length 2 d.month
        (Nat.repr_length d.month 2 (by norm_num)
          (by rw [show (10 : Nat) ^ 2 = 100 from by norm_num]; omega))
    · exact py_zero_pad_length 2 d.day
        (Nat.repr_length d.day 2 (by norm_num)
          (by rw [show (10 : Nat) ^ 2 = 100 from by norm_num]; omega))

/-- Witness for C9 with user 7, an expiry of 2024-03-05 and plan pro. -/
theorem create_user_body_spec_witness :
    alist_lookup "user_id"
        (create_user_body 7 (some (PyDate.mk 2024 3 5)) (some "pro")) =
      some (Json.num 7) ∧
    alist_lookup "expires_at"
        (create_user_body 7 (some (PyDate.mk 2024 3 5)) (some "pro")) =
      some (Json.str "2024-03-05") ∧
    alist_lookup "plan_type"
        (create_user_body 7 (some (PyDate.mk 2024 3 5)) (some "pro")) =
      some (Json.str "pro") ∧
    (∃ ys ms ds, pydate_isoformat (PyDate.mk 2024 3 5) = ys ++ "-" ++ ms ++ "-" ++ ds ∧
      ys.length = 4 ∧ ms.length = 2 ∧ ds.length = 2) :=
  ⟨(create_user_body_spec 7 (some (PyDate.mk 2024 3 5)) (some "pro")).1,
   ((create_user_body_spec 7 (some (PyDate.mk 2024 3 5)) (some "pro")).2.2.1
      (PyDate.mk 2024 3 5) rfl).trans
     (congrArg (fun s => some (Json.str s)) (by decide)),
   (create_user_body_spec 7 (some (PyDate.mk 2024 3 5)) (some "pro")).2.2.2.2.1
      "pro" rfl,
   (create_user_body_spec 7 (some (PyDate.mk 2024 3 5)) (some "pro")).2.2.2.2.2
      (PyDate.mk 2024 3 5) rfl (by decide) (by decide) (by decide)⟩
